import Mathlib

/-!
Shallow embedding of the `smsc` Python client library (modules
`smsc/messages.py`, `smsc/responses.py`, `smsc/api.py`, `smsc/exceptions.py`)
and proofs about the frozen claims.

JSON values are modelled by `JVal` (numbers as exact rationals), Python dicts
by insertion-ordered association lists, Python exceptions by `PyExc`, and
fallible Python code by `Except PyExc`.
-/

/-- A JSON value as decoded by `requests`' `json()`: null, a number, or a
string.  Numbers are modelled as exact rationals (the claims never depend on
binary floating point rounding). -/
inductive JVal where
  | jNull : JVal
  | jNum : Rat → JVal
  | jStr : String → JVal
deriving DecidableEq

/-- A Python dict decoded from a JSON object: insertion-ordered association
list from string keys to values. -/
abbrev JObj := List (String × JVal)

/-- A decoded JSON body as returned by `Response.json()`: either a single
object or an array of objects (the shapes the gateway produces). -/
inductive JBody where
  | obj : JObj → JBody
  | arr : List JObj → JBody
deriving DecidableEq

/-- The raw-body payload an operation error carries: either the raw text of
the reply (`r.text`, non-200 case) or the decoded JSON (`res`, the
dict-body case in `get_status`). -/
inductive RawBody where
  | text : String → RawBody
  | json : JBody → RawBody
deriving DecidableEq

/-- Python exceptions raised by the embedded code.  The final four mirror
`smsc/exceptions.py` (subclasses of `SMSCException`); the others are Python
builtins (`assert` failure, `del`/`[]` on a missing key, failed `int()` or
`float()` conversion, operations on a wrongly-typed value, and the date
parser failure raised by `arrow`). -/
inductive PyExc where
  | assertionError : PyExc
  | keyError : String → PyExc
  | valueError : PyExc
  | typeError : PyExc
  | attributeError : PyExc
  | parserError : PyExc
  | sendError : Nat → List (String × String) → RawBody → PyExc
  | getCostError : Nat → List (String × String) → RawBody → PyExc
  | getStatusError : Nat → List (String × String) → RawBody → PyExc
  | getBalanceError : Nat → List (String × String) → RawBody → PyExc
deriving DecidableEq

instance exceptDecEq {ε α : Type} [DecidableEq ε] [DecidableEq α] :
    DecidableEq (Except ε α) := fun a b =>
  match a, b with
  | .ok x, .ok y => if h : x = y then .isTrue (by rw [h]) else .isFalse (by simp [h])
  | .error x, .error y => if h : x = y then .isTrue (by rw [h]) else .isFalse (by simp [h])
  | .ok _, .error _ => .isFalse (by simp)
  | .error _, .ok _ => .isFalse (by simp)

/-- Class-hierarchy test from `smsc/exceptions.py`: the four operation errors
are subclasses of the root `SMSCException`; Python builtins are not. -/
def PyExc.isSMSCException : PyExc → Bool
  | .sendError _ _ _ => true
  | .getCostError _ _ _ => true
  | .getStatusError _ _ _ => true
  | .getBalanceError _ _ _ => true
  | _ => false

/-- `Except` result is a success. -/
def okB {α : Type} : Except PyExc α → Bool
  | .ok _ => true
  | .error _ => false

/-- `Except` result is a Python `KeyError` (any key). -/
def isKeyErr {α : Type} : Except PyExc α → Bool
  | .error (.keyError _) => true
  | _ => false

/-- Association-list lookup: `obj[k]` / `obj.get(k)` on a Python dict
(first matching key). -/
def alget {β : Type} : List (String × β) → String → Option β
  | [], _ => none
  | (k', v) :: rest, k => if k' = k then some v else alget rest k

/-- Association-list deletion: `del obj[k]` on a Python dict (keys are
unique in a dict, so removing every match is the same operation). -/
def aldel {β : Type} : List (String × β) → String → List (String × β)
  | [], _ => []
  | (k', v) :: rest, k => if k' = k then aldel rest k else (k', v) :: aldel rest k

/-- `k in obj` on a Python dict. -/
def alHasKey {β : Type} (o : List (String × β)) (k : String) : Bool :=
  (alget o k).isSome

/-- Python dict assignment `obj[k] = v`: overwrite in place if the key
exists, else append at the end (dicts preserve insertion order). -/
def alset {β : Type} (o : List (String × β)) (k : String) (v : β) : List (String × β) :=
  if alHasKey o k then o.map (fun p => if p.1 = k then (k, v) else p) else o ++ [(k, v)]

/-- `obj.get(k, None)`: a JSON `null` value and an absent key are both Python
`None`, hence indistinguishable through this read. -/
def getOrNone (o : JObj) (k : String) : Option JVal :=
  match alget o k with
  | some .jNull => none
  | x => x

/-- Truncation toward zero, the behaviour of Python `int()` on a float. -/
def ratTrunc (q : Rat) : Int := q.num.tdiv (q.den : Int)

/-- Leading and trailing whitespace removal (Python `int()` / `float()`
strip their string argument). -/
def pyStrip (s : String) : List Char :=
  ((s.toList.dropWhile Char.isWhitespace).reverse.dropWhile Char.isWhitespace).reverse

/-- All characters are decimal digits. -/
def isDigits (cs : List Char) : Bool := cs.all (fun c => c.isDigit)

/-- Numeric value of a digit list (most significant first). -/
def digitsToNat (cs : List Char) : Nat :=
  cs.foldl (fun a c => a * 10 + (c.toNat - 48)) 0

/-- Integer literal parse: optional sign followed by at least one digit. -/
def parseIntCs : List Char → Option Int
  | '-' :: ds => if !ds.isEmpty && isDigits ds then some (-(digitsToNat ds : Int)) else none
  | '+' :: ds => if !ds.isEmpty && isDigits ds then some (digitsToNat ds : Int) else none
  | ds => if !ds.isEmpty && isDigits ds then some (digitsToNat ds : Int) else none

/-- Python `int(v)`: numbers truncate toward zero, strings must parse as an
integer literal (`ValueError` otherwise), `None` is a `TypeError`. -/
def pyInt : JVal → Except PyExc Int
  | .jNull => .error .typeError
  | .jNum q => .ok (ratTrunc q)
  | .jStr s =>
    match parseIntCs (pyStrip s) with
    | some n => .ok n
    | none => .error .valueError

/-- The exact rational value of a decimal literal with the given sign,
integer digits and fractional digits. -/
def decToRat (neg : Bool) (intCs fracCs : List Char) : Rat :=
  let n : Nat := digitsToNat intCs * 10 ^ fracCs.length + digitsToNat fracCs
  mkRat (if neg then -(n : Int) else (n : Int)) (10 ^ fracCs.length)

/-- Python `float(s)` on a plain decimal literal: optional sign, integer
part, optional fractional part.  (Exponent / inf forms are not modelled; no
claim exercises them.)  Fails with `ValueError` on anything else. -/
def pyFloatOfString (s : String) : Except PyExc Rat :=
  let cs := pyStrip s
  let signed : Bool × List Char :=
    match cs with
    | '-' :: rest => (true, rest)
    | '+' :: rest => (false, rest)
    | _ => (false, cs)
  let intCs := (signed.2.span (fun c => !(c == '.'))).1
  let rest := (signed.2.span (fun c => !(c == '.'))).2
  let fracOk : Bool × List Char :=
    match rest with
    | [] => (true, [])
    | '.' :: frac => (frac.all (fun c => !(c == '.')), frac)
    | _ => (false, [])
  if isDigits intCs && isDigits fracOk.2 && fracOk.1 && !(intCs.isEmpty && fracOk.2.isEmpty) then
    .ok (decToRat signed.1 intCs fracOk.2)
  else .error .valueError

/-- Python `float(v)`: numbers pass through, strings are parsed, `None` is a
`TypeError`. -/
def pyFloat : JVal → Except PyExc Rat
  | .jNull => .error .typeError
  | .jNum q => .ok q
  | .jStr s => pyFloatOfString s

/-- Python `str(v)`.  (`str` of a non-integer number is approximated by the
rational printer; no claim evaluates that branch.) -/
def pyStr : JVal → String
  | .jNull => "None"
  | .jNum q => if q.den = 1 then toString q.num else toString q
  | .jStr s => s

/-- `int(obj.get(k, 0))` — the defaulting integer read used throughout
`smsc/responses.py`. -/
def getInt (obj : JObj) (k : String) : Except PyExc Int :=
  match alget obj k with
  | none => .ok 0
  | some v => pyInt v

/-- `float(obj.get(k, 0.0))`. -/
def getFloat (obj : JObj) (k : String) : Except PyExc Rat :=
  match alget obj k with
  | none => .ok 0
  | some v => pyFloat v

/-- `str(obj.get(k, ""))`. -/
def getStr (obj : JObj) (k : String) : String :=
  match alget obj k with
  | none => ""
  | some v => pyStr v

/-! ## smsc/messages.py -/

/-- The optional keyword parameters accepted by the message constructors
(`kwargs.get("translit")` etc.); `none` is "absent or passed as None". -/
structure MsgOpts where
  translit : Option JVal
  tinyurl : Option JVal
  maxsms : Option JVal
deriving DecidableEq

/-- `Message.__init__` state: `_text`, `_format`, `_translit`, `_tinyurl`,
`_maxsms`. -/
structure Message where
  text : String
  msgFormat : Option String
  translit : Option JVal
  tinyurl : Option JVal
  maxsms : Option JVal
deriving DecidableEq

/-- `Message.__init__(text, msg_format, **kwargs)`. -/
def Message.init (text : String) (msgFormat : Option String) (kwargs : MsgOpts) : Message :=
  ⟨text, msgFormat, kwargs.translit, kwargs.tinyurl, kwargs.maxsms⟩

/-- `Message.encode` translated in state-passing form: the method builds a
fresh dict `res` via dict assignments and performs no attribute assignment
on `self`, so the returned object state is the unchanged `self`. -/
def Message.encodeS (m : Message) : JObj × Message :=
  let res : JObj := [("mes", .jStr m.text)]
  let res := match m.msgFormat with
    | some f => if f ≠ "" then alset res f (.jNum 1) else res
    | none => res
  let res := match m.translit with
    | some v => alset res "translit" v
    | none => res
  let res := match m.tinyurl with
    | some v => alset res "tinyurl" v
    | none => res
  let res := match m.maxsms with
    | some v => alset res "maxsms" v
    | none => res
  (res, m)

/-- `Message.encode()`: the returned dict. -/
def Message.encode (m : Message) : JObj := (Message.encodeS m).1

/-- `SMSMessage.__init__`: `assert len(text) <= 800`, then the base
constructor with `msg_format=None`. -/
def SMSMessage (text : String) (kwargs : MsgOpts) : Except PyExc Message :=
  if text.length ≤ 800 then .ok (Message.init text none kwargs) else .error .assertionError

/-- `FlashMessage.__init__`: `assert len(text) <= 800`, `msg_format="flash"`. -/
def FlashMessage (text : String) (kwargs : MsgOpts) : Except PyExc Message :=
  if text.length ≤ 800 then .ok (Message.init text (some "flash") kwargs) else .error .assertionError

/-- `ViberMessage.__init__`: `assert len(text) <= 800`, `msg_format="viber"`. -/
def ViberMessage (text : String) (kwargs : MsgOpts) : Except PyExc Message :=
  if text.length ≤ 800 then .ok (Message.init text (some "viber") kwargs) else .error .assertionError

/-- The three concrete message variants. -/
inductive MsgVariant where
  | sms | flash | viber
deriving DecidableEq

/-- Dispatch to the variant constructor. -/
def mkMessage : MsgVariant → String → MsgOpts → Except PyExc Message
  | .sms, t, o => SMSMessage t o
  | .flash, t, o => FlashMessage t o
  | .viber, t, o => ViberMessage t o

/-! ## smsc/responses.py -/

/-- `SMSCError` named tuple: error code plus description.  The description is
whatever `obj.get("error", None)` produced, possibly Python `None`. -/
structure SMSCError where
  code : Int
  error : Option JVal
deriving DecidableEq

/-- `Response.__init__` state: `__error = obj.get("error", None)` and
`__code = int(obj.get("error_code", 0))`. -/
structure Response where
  rawError : Option JVal
  code : Int
deriving DecidableEq

/-- `Response.__init__(obj)`; `int()` of a malformed `error_code` raises. -/
def Response.init (obj : JObj) : Except PyExc Response :=
  match getInt obj "error_code" with
  | .error e => .error e
  | .ok c => .ok ⟨getOrNone obj "error", c⟩

/-- Python truthiness of the stored `__error` value. -/
def optTruthy : Option JVal → Bool
  | none => false
  | some .jNull => false
  | some (.jNum q) => decide (q ≠ 0)
  | some (.jStr s) => decide (s ≠ "")

/-- `Response.error` property: `None` when both `not __error` and
`not __code`, else `SMSCError(__code, __error)`. -/
def Response.error (r : Response) : Option SMSCError :=
  if !(optTruthy r.rawError) && r.code == 0 then none
  else some ⟨r.code, r.rawError⟩

/-- `Status.__init__` state: `__id` and `__name`. -/
structure Status where
  status_id : Int
  name : String
deriving DecidableEq

/-- `Status.__init__(obj)`: defaulting reads of `status` / `status_name`,
then `del obj["status"]` and `del obj["status_name"]` in that order (each a
`KeyError` when the key is missing).  Returns the status together with the
mutated dict. -/
def Status.init (obj : JObj) : Except PyExc (Status × JObj) :=
  match getInt obj "status" with
  | .error e => .error e
  | .ok i =>
    if alHasKey obj "status" then
      if alHasKey (aldel obj "status") "status_name" then
        .ok (⟨i, getStr obj "status_name"⟩, aldel (aldel obj "status") "status_name")
      else .error (.keyError "status_name")
    else .error (.keyError "status")

/-- Calendar fields extracted by the `"DD.MM.YYYY HH:mm:ss"` format. -/
structure DTFields where
  day : Nat
  month : Nat
  year : Nat
  hour : Nat
  minute : Nat
  second : Nat
deriving DecidableEq

/-- A timezone-aware datetime as produced by
`arrow.get(..., tzinfo=tz.gettz("Europe/Moscow")).datetime`. -/
structure ZonedDT where
  fields : DTFields
  zone : String
deriving DecidableEq

/-- Two decimal digits as a number. -/
def twoDigits (a b : Char) : Option Nat :=
  if a.isDigit && b.isDigit then some ((a.toNat - 48) * 10 + (b.toNat - 48)) else none

/-- Strict parse of `"DD.MM.YYYY HH:mm:ss"` with basic range validation. -/
def parseDTFields (s : String) : Option DTFields :=
  match s.toList with
  | [d1, d2, p1, m1, m2, p2, y1, y2, y3, y4, sp, h1, h2, q1, n1, n2, q2, e1, e2] =>
    if p1 = '.' ∧ p2 = '.' ∧ sp = ' ' ∧ q1 = ':' ∧ q2 = ':' then
      match twoDigits d1 d2, twoDigits m1 m2, twoDigits y1 y2, twoDigits y3 y4,
            twoDigits h1 h2, twoDigits n1 n2, twoDigits e1 e2 with
      | some dd, some mm, some yh, some yl, some hh, some nn, some ss =>
        if 1 ≤ dd ∧ dd ≤ 31 ∧ 1 ≤ mm ∧ mm ≤ 12 ∧ hh ≤ 23 ∧ nn ≤ 59 ∧ ss ≤ 59 then
          some ⟨dd, mm, yh * 100 + yl, hh, nn, ss⟩
        else none
      | _, _, _, _, _, _, _ => none
    else none
  | _ => none

/-- `arrow.get(s, "DD.MM.YYYY HH:mm:ss", tzinfo=tz.gettz("Europe/Moscow"))
.datetime`: parse into a timezone-aware instant in the fixed zone
Europe/Moscow, raising on a malformed string. -/
def arrowGetMoscow (s : String) : Except PyExc ZonedDT :=
  match parseDTFields s with
  | some f => .ok ⟨f, "Europe/Moscow"⟩
  | none => .error .parserError

/-- A value of the exposed `StatusResponse.data` mapping: either a raw JSON
value or a parsed timezone-aware datetime. -/
inductive DVal where
  | raw : JVal → DVal
  | date : ZonedDT → DVal
deriving DecidableEq

/-- The exposed `StatusResponse.data` dict. -/
abbrev DObj := List (String × DVal)

/-- The `self.__data[k]` read followed by the `is not None` check and the
date parse: `KeyError` when the key is absent, `none` ("leave as is") when
the value is JSON null, the parsed datetime for a string, and a `TypeError`
for a non-string non-null value (arrow rejects it). -/
def handleDate (o : JObj) (k : String) : Except PyExc (Option ZonedDT) :=
  match alget o k with
  | none => .error (.keyError k)
  | some .jNull => .ok none
  | some (.jStr s) =>
    match arrowGetMoscow s with
    | .ok d => .ok (some d)
    | .error e => .error e
  | some (.jNum _) => .error .typeError

/-- Replacement performed on a date key of `data`: the parsed datetime when
the parse ran, the untouched raw value when the value was null. -/
def dval (v : JVal) : Option ZonedDT → DVal
  | some d => .date d
  | none => .raw v

/-- The transform the copy loop plus the two in-place date reassignments
apply to a single dict entry: only the `last_date` and `send_date` keys
change, every key keeps its place. -/
def dataEntry (ld sd : Option ZonedDT) (p : String × JVal) : String × DVal :=
  if p.1 = "last_date" then (p.1, dval p.2 ld)
  else if p.1 = "send_date" then (p.1, dval p.2 sd)
  else (p.1, .raw p.2)

/-- The `__data` dict after the copy loop and the two in-place date
reassignments (copy order is the dict order). -/
def dataOf (obj2 : JObj) (ld sd : Option ZonedDT) : DObj :=
  obj2.map (dataEntry ld sd)

/-- `del data[k]` with the `KeyError` on a missing key. -/
def ddelChecked (o : DObj) (k : String) : Except PyExc DObj :=
  if alHasKey o k then .ok (aldel o k) else .error (.keyError k)

/-- `StatusResponse` state: base response, extracted status, exposed data. -/
structure StatusResponse where
  base : Response
  status : Status
  data : DObj
deriving DecidableEq

/-- `StatusResponse.__init__(obj)`: base parse, `Status(obj)` (which deletes
its two keys from the shared dict), copy of the remaining keys into
`__data`, the two date lookups/parses (`KeyError` when the key is absent),
then `del __data["send_timestamp"]` and `del __data["last_timestamp"]`. -/
def StatusResponse.init (obj : JObj) : Except PyExc StatusResponse :=
  match Response.init obj with
  | .error e => .error e
  | .ok base =>
    match Status.init obj with
    | .error e => .error e
    | .ok (st, obj2) =>
      match handleDate obj2 "last_date" with
      | .error e => .error e
      | .ok ld =>
        match handleDate obj2 "send_date" with
        | .error e => .error e
        | .ok sd =>
          match ddelChecked (dataOf obj2 ld sd) "send_timestamp" with
          | .error e => .error e
          | .ok data2 =>
            match ddelChecked data2 "last_timestamp" with
            | .error e => .error e
            | .ok data3 => .ok ⟨base, st, data3⟩

/-- `SendResponse` state. -/
structure SendResponse where
  base : Response
  message_id : Option JVal
  count : Int
  cost : Rat
deriving DecidableEq

/-- `SendResponse.__init__(obj)`. -/
def SendResponse.init (obj : JObj) : Except PyExc SendResponse :=
  match Response.init obj with
  | .error e => .error e
  | .ok base =>
    match getInt obj "cnt" with
    | .error e => .error e
    | .ok cnt =>
      match getFloat obj "cost" with
      | .error e => .error e
      | .ok cost => .ok ⟨base, getOrNone obj "id", cnt, cost⟩

/-- `CostResponse` state. -/
structure CostResponse where
  base : Response
  count : Int
  cost : Rat
deriving DecidableEq

/-- `CostResponse.__init__(obj)`. -/
def CostResponse.init (obj : JObj) : Except PyExc CostResponse :=
  match Response.init obj with
  | .error e => .error e
  | .ok base =>
    match getInt obj "cnt" with
    | .error e => .error e
    | .ok cnt =>
      match getFloat obj "cost" with
      | .error e => .error e
      | .ok cost => .ok ⟨base, cnt, cost⟩

/-- `BalanceResponse` state. -/
structure BalanceResponse where
  base : Response
  balance : Rat
  credit : Rat
  currency : String
deriving DecidableEq

/-- `BalanceResponse.__init__(obj)`: `float(obj.get("balance", 0.0))`,
`float(obj.get("credit", 0.0))`, `str(obj.get("currency", ""))`. -/
def BalanceResponse.init (obj : JObj) : Except PyExc BalanceResponse :=
  match Response.init obj with
  | .error e => .error e
  | .ok base =>
    match getFloat obj "balance" with
    | .error e => .error e
    | .ok bal =>
      match getFloat obj "credit" with
      | .error e => .error e
      | .ok cred => .ok ⟨base, bal, cred, getStr obj "currency"⟩

/-! ## smsc/api.py -/

/-- The `to` / `msg_id` arguments: a single string or a list of strings. -/
inductive StrOrList where
  | one : String → StrOrList
  | many : List String → StrOrList
deriving DecidableEq

/-- `get_status` normalization,
`isinstance(to, str) and ",".join([to, ""]) or ",".join(to)`: a single
string is joined with an empty trailing element (the result `s ++ ","` is
never empty, so the `or` keeps it); a list is comma-joined. -/
def joinStatusArg : StrOrList → String
  | .one s => s ++ ","
  | .many l => String.intercalate "," l

/-- `send` / `get_cost` normalization,
`isinstance(to, str) and to or ",".join(to)`: a non-empty single string
passes through; the empty string falls to `",".join("")` which is again
empty; a list is comma-joined. -/
def joinSendArg : StrOrList → String
  | .one s => if s ≠ "" then s else String.intercalate "," (s.toList.map Char.toString)
  | .many l => String.intercalate "," l

/-- The operation-specific query parameters `get_status` adds before issuing
the GET (auth parameters aside). -/
def statusParams (toArg msgId : StrOrList) : List (String × String) :=
  [("charset", "utf-8"), ("all", "2"), ("phone", joinStatusArg toArg), ("id", joinStatusArg msgId)]

/-- The recipient parameter `send` / `get_cost` adds. -/
def sendPhonesParam (toArg : StrOrList) : List (String × String) :=
  [("phones", joinSendArg toArg)]

/-- The transport reply consumed by the client: status code, headers, raw
body text, and the decoded JSON body (`r.json()` of that text). -/
structure HttpReply where
  statusCode : Nat
  headers : List (String × String)
  text : String
  body : JBody
deriving DecidableEq

/-- `r.json()` used as a dict: a list body has no `.get`, so the response
constructors fail with `AttributeError` on it. -/
def jsonAsObj : JBody → Except PyExc JObj
  | .obj o => .ok o
  | .arr _ => .error .attributeError

/-- Reply handling of `SMSC.send`: non-200 raises `SendError` with the
status code, headers and raw body; 200 wraps the JSON body in
`SendResponse`. -/
def sendHandle (r : HttpReply) : Except PyExc SendResponse :=
  if r.statusCode ≠ 200 then .error (.sendError r.statusCode r.headers (.text r.text))
  else
    match jsonAsObj r.body with
    | .error e => .error e
    | .ok o => SendResponse.init o

/-- Reply handling of `SMSC.get_cost`: as `send` but with `GetCostError` and
`CostResponse`. -/
def getCostHandle (r : HttpReply) : Except PyExc CostResponse :=
  if r.statusCode ≠ 200 then .error (.getCostError r.statusCode r.headers (.text r.text))
  else
    match jsonAsObj r.body with
    | .error e => .error e
    | .ok o => CostResponse.init o

/-- The `get_status` result loop: one `StatusResponse` per element, in
order, propagating the first construction failure. -/
def statusList : List JObj → Except PyExc (List StatusResponse)
  | [] => .ok []
  | o :: rest =>
    match StatusResponse.init o with
    | .error e => .error e
    | .ok s =>
      match statusList rest with
      | .error e => .error e
      | .ok ss => .ok (s :: ss)

/-- Reply handling of `SMSC.get_status`: non-200 raises `GetStatusError`
with the raw text; a dict body raises `GetStatusError` carrying the decoded
body; a list body is mapped through `StatusResponse` in order. -/
def getStatusHandle (r : HttpReply) : Except PyExc (List StatusResponse) :=
  if r.statusCode ≠ 200 then .error (.getStatusError r.statusCode r.headers (.text r.text))
  else
    match r.body with
    | .obj o => .error (.getStatusError r.statusCode r.headers (.json (.obj o)))
    | .arr l => statusList l

/-- Reply handling of `SMSC.get_balance`. -/
def getBalanceHandle (r : HttpReply) : Except PyExc BalanceResponse :=
  if r.statusCode ≠ 200 then .error (.getBalanceError r.statusCode r.headers (.text r.text))
  else
    match jsonAsObj r.body with
    | .error e => .error e
    | .ok o => BalanceResponse.init o

/-! ## Claim-support definitions -/

/-- The raw object's `error_code` field is present and a non-zero number. -/
def codeNonzero (o : JObj) : Bool :=
  match alget o "error_code" with
  | some (.jNum q) => decide (q ≠ 0)
  | _ => false

/-- The raw object's `error` field is present and a non-empty string. -/
def errNonempty (o : JObj) : Bool :=
  match alget o "error" with
  | some (.jStr s) => decide (s ≠ "")
  | _ => false

/-- The `error` field is absent, null, or a string — its documented type. -/
def errFieldOk (o : JObj) : Bool :=
  match alget o "error" with
  | some (.jNum _) => false
  | _ => true

/-- The `error_code` field is absent or an integer — its documented type. -/
def codeFieldOk (o : JObj) : Bool :=
  match alget o "error_code" with
  | none => true
  | some (.jNum q) => decide (q.den = 1)
  | _ => false

/-- The six keys `StatusResponse.__init__` consumes unconditionally. -/
def statusKeys : List String :=
  ["status", "status_name", "send_timestamp", "last_timestamp", "last_date", "send_date"]

/-- A date key of the raw object, when present, holds null or a parseable
string (so its processing cannot fail for a reason other than a missing
key). -/
def dateShapeOk (o : JObj) (k : String) : Bool :=
  match alget o k with
  | none => true
  | some .jNull => true
  | some (.jStr s) => okB (arrowGetMoscow s)
  | some (.jNum _) => false

/-- The defaulting conversions of `StatusResponse.__init__` succeed: the
`error_code` and `status` values convert with `int()` and the date values
are well shaped. -/
def convOk (o : JObj) : Bool :=
  okB (Response.init o) &&
  (match alget o "status" with
   | none => true
   | some v => okB (pyInt v)) &&
  dateShapeOk o "last_date" && dateShapeOk o "send_date"

/-- No optional message parameters. -/
def noOpts : MsgOpts := ⟨none, none, none⟩

/-- A text of 801 characters. -/
def longTextA : String := String.mk (List.replicate 801 'a')

/-- Another text of 801 characters. -/
def longTextB : String := String.mk (List.replicate 801 'b')

/-! ## Helper lemmas -/

set_option maxRecDepth 10000

theorem alget_aldel {β : Type} (o : List (String × β)) (k k' : String) :
    alget (aldel o k') k = if k = k' then none else alget o k := by
  induction o with
  | nil => simp [alget, aldel]
  | cons p rest ih =>
    rcases p with ⟨k0, v⟩
    simp only [aldel, alget]
    by_cases h1 : k0 = k' <;> by_cases h2 : k0 = k <;> by_cases h3 : k = k' <;>
      simp_all [alget]

theorem alget_aldel_self {β : Type} (o : List (String × β)) (k : String) :
    alget (aldel o k) k = none := by
  simp [alget_aldel]

theorem alget_aldel_ne {β : Type} (o : List (String × β)) {k k' : String} (h : k ≠ k') :
    alget (aldel o k') k = alget o k := by
  simp [alget_aldel, h]

/-! ## Claim C1 -/

/-- Claim C1 (corrected), counterexample: on a text of 801 characters the
`SMSMessage` constructor fails with an `AssertionError`, which does not
belong to the client's common error category (the `SMSCException`
hierarchy) — there is no `InvalidArgument` error kind in that category. -/
theorem claim1_counterexample :
    SMSMessage longTextA noOpts = .error .assertionError ∧
      PyExc.isSMSCException .assertionError = false := by
  exact ⟨by decide, rfl⟩

/-- Claim C1 (amended): constructing an `SMSMessage`, `FlashMessage` or
`ViberMessage` succeeds for every text of at most 800 characters; for every
longer text it fails with an `AssertionError`, an error outside the
client's common error category. -/
theorem claim1_thm (text : String) (opts : MsgOpts) :
    (text.length ≤ 800 →
      okB (SMSMessage text opts) = true ∧ okB (FlashMessage text opts) = true ∧
        okB (ViberMessage text opts) = true) ∧
    (800 < text.length →
      SMSMessage text opts = .error .assertionError ∧
        FlashMessage text opts = .error .assertionError ∧
        ViberMessage text opts = .error .assertionError ∧
        PyExc.isSMSCException .assertionError = false) := by
  constructor
  · intro h
    simp [SMSMessage, FlashMessage, ViberMessage, okB, h]
  · intro h
    have h2 : ¬ text.length ≤ 800 := by omega
    simp [SMSMessage, FlashMessage, ViberMessage, h2, PyExc.isSMSCException]

/-- Concrete instantiation of `claim1_thm`: a 5-character text
constructs, an 801-character text fails with `AssertionError`. -/
theorem claim1_witness :
    okB (SMSMessage "Hello" noOpts) = true ∧
      ViberMessage longTextA noOpts = .error .assertionError :=
  ⟨((claim1_thm "Hello" noOpts).1 (by decide)).1,
   ((claim1_thm longTextA noOpts).2 (by decide)).2.2.1⟩

/-! ## Claim C4 -/

/-- Claim C4 (confirmed): in `get_status` a single-string phone (and
likewise a single-string message id — both run through the same
normalization) is joined with an empty trailing element, so `"79999999999"`
becomes `"79999999999,"`; a list is comma-joined with no forced trailing
separator; and in `send`/`get_cost` a (non-empty) single string passes
through unchanged. -/
theorem claim4_thm :
    (∀ s : String, joinStatusArg (.one s) = s ++ ",") ∧
    joinStatusArg (.one "79999999999") = "79999999999," ∧
    (∀ l : List String, joinStatusArg (.many l) = String.intercalate "," l) ∧
    joinStatusArg (.many ["79999999999", "79999999998"]) = "79999999999,79999999998" ∧
    (∀ s : String, s ≠ "" → joinSendArg (.one s) = s) ∧
    (∀ a b : StrOrList, statusParams a b =
      [("charset", "utf-8"), ("all", "2"), ("phone", joinStatusArg a), ("id", joinStatusArg b)]) := by
  refine ⟨fun s => rfl, by decide, fun l => rfl, by decide, fun s h => ?_, fun a b => rfl⟩
  simp [joinSendArg, h]

/-- Concrete instantiation of `claim4_thm`: the `send` normalization
leaves a single phone number unchanged. -/
theorem claim4_witness : joinSendArg (.one "79999999999") = "79999999999" :=
  claim4_thm.2.2.2.2.1 "79999999999" (by decide)

/-! ## Claim C7 -/

/-- Claim C7 (corrected), counterexample: the only input-validation failure
in the client — message text over 800 characters — raises `AssertionError`,
which is not in the `SMSCException` category; no `InvalidArgument` kind of
that category exists. -/
theorem claim7_counterexample :
    FlashMessage longTextB noOpts = .error .assertionError ∧
      PyExc.isSMSCException .assertionError = false := by
  exact ⟨by decide, rfl⟩

/-- Claim C7 (amended): on a non-200 transport reply each operation fails
with its own error kind carrying the status code, headers and raw body, and
the four operation error kinds all belong to the common `SMSCException`
category (the text-length failure, an `AssertionError`, does not). -/
theorem claim7_thm (r : HttpReply) (h : r.statusCode ≠ 200) :
    sendHandle r = .error (.sendError r.statusCode r.headers (.text r.text)) ∧
    getCostHandle r = .error (.getCostError r.statusCode r.headers (.text r.text)) ∧
    getStatusHandle r = .error (.getStatusError r.statusCode r.headers (.text r.text)) ∧
    getBalanceHandle r = .error (.getBalanceError r.statusCode r.headers (.text r.text)) ∧
    PyExc.isSMSCException (.sendError r.statusCode r.headers (.text r.text)) = true ∧
    PyExc.isSMSCException (.getCostError r.statusCode r.headers (.text r.text)) = true ∧
    PyExc.isSMSCException (.getStatusError r.statusCode r.headers (.text r.text)) = true ∧
    PyExc.isSMSCException (.getBalanceError r.statusCode r.headers (.text r.text)) = true := by
  simp [sendHandle, getCostHandle, getStatusHandle, getBalanceHandle, h, PyExc.isSMSCException]

/-- Concrete instantiation of `claim7_thm` at a 404 reply. -/
theorem claim7_witness :
    sendHandle ⟨404, [], "err", .obj []⟩ = .error (.sendError 404 [] (.text "err")) :=
  (claim7_thm ⟨404, [], "err", .obj []⟩ (by decide)).1

/-! ## Claim C9 -/

/-- Claim C9 (confirmed): `encode` in state-passing form returns the object
state unchanged (the translated method performs no attribute assignment),
so every stored attribute is preserved and a repeated call yields an
identical dict. -/
theorem claim9_thm (m : Message) :
    (Message.encodeS m).2 = m ∧
    (Message.encodeS ((Message.encodeS m).2)).1 = (Message.encodeS m).1 ∧
    (Message.encodeS m).2.text = m.text ∧
    (Message.encodeS m).2.msgFormat = m.msgFormat ∧
    (Message.encodeS m).2.translit = m.translit ∧
    (Message.encodeS m).2.tinyurl = m.tinyurl ∧
    (Message.encodeS m).2.maxsms = m.maxsms :=
  ⟨rfl, rfl, rfl, rfl, rfl, rfl, rfl⟩

/-! ## Claim C2 -/

/-- Claim C2 (confirmed): for a raw object whose `error` / `error_code`
fields have their documented types, the `error` accessor of a constructed
`Response` returns absence exactly when the `error_code` field is zero (or
absent) and the `error` field is no non-empty string; when it returns a
value, that value carries the parsed code and the raw error text. -/
theorem claim2_thm (obj : JObj) (r : Response)
    (hinit : Response.init obj = .ok r)
    (herr : errFieldOk obj = true) (hcode : codeFieldOk obj = true) :
    ((Response.error r = none) ↔ (codeNonzero obj || errNonempty obj) = false) ∧
    (∀ e, Response.error r = some e → e.code = r.code ∧ e.error = getOrNone obj "error") := by
  have hr : r.rawError = getOrNone obj "error" ∧ ((r.code = 0) ↔ codeNonzero obj = false) := by
    cases hec : alget obj "error_code" with
    | none =>
      simp only [Response.init, getInt, hec, Except.ok.injEq] at hinit
      rw [← hinit]
      simp [codeNonzero, hec]
    | some v =>
      rcases v with _ | q | s
      · simp [codeFieldOk, hec] at hcode
      · have hden : q.den = 1 := by simpa [codeFieldOk, hec] using hcode
        simp only [Response.init, getInt, hec, pyInt, Except.ok.injEq] at hinit
        rw [← hinit]
        have htr : ratTrunc q = q.num := by simp [ratTrunc, hden]
        simp only [htr, codeNonzero, hec]
        refine ⟨trivial, ?_, ?_⟩
        · intro h
          simp [Rat.num_eq_zero.mp h]
        · intro h
          have hq0 : q = 0 := by
            by_contra hq
            simp [hq] at h
          simp [hq0]
      · simp [codeFieldOk, hec] at hcode
  obtain ⟨hraw, hcode0⟩ := hr
  have htru : optTruthy (getOrNone obj "error") = errNonempty obj := by
    cases hev : alget obj "error" with
    | none => simp [getOrNone, hev, optTruthy, errNonempty]
    | some v =>
      rcases v with _ | q | s
      · simp [getOrNone, hev, optTruthy, errNonempty]
      · simp [errFieldOk, hev] at herr
      · simp [getOrNone, hev, optTruthy, errNonempty]
  have hbeq : (r.code == 0) = !(codeNonzero obj) := by
    cases hcz : codeNonzero obj with
    | false =>
      have : r.code = 0 := hcode0.mpr hcz
      simp [this]
    | true =>
      have : r.code ≠ 0 := by
        intro h
        rw [hcode0.mp h] at hcz
        exact Bool.false_ne_true hcz
      simp [this]
  constructor
  · rw [Response.error, hraw, htru, hbeq]
    cases hne : errNonempty obj <;> cases hcz : codeNonzero obj <;> simp
  · intro e he
    rw [Response.error] at he
    by_cases hcond : (!optTruthy r.rawError && r.code == 0) = true
    · rw [if_pos hcond] at he
      exact absurd he (by simp)
    · rw [if_neg hcond] at he
      have he' : (⟨r.code, r.rawError⟩ : SMSCError) = e := by
        simpa using he
      rw [← he', hraw]
      exact ⟨rfl, rfl⟩

/-- Concrete instantiation of `claim2_thm`: an object with neither
`error` nor non-zero `error_code` yields "no error". -/
theorem claim2_witness : Response.error ⟨none, 0⟩ = none :=
  (claim2_thm [("id", .jNum 1)] ⟨none, 0⟩ (by decide) (by decide) (by decide)).1.mpr (by decide)

/-! ## Claim C6 -/

/-- Claim C6 (confirmed): for every successfully constructed message,
`encode()` contains `mes` equal to the construction-time text, contains
`flash = 1` exactly for the Flash variant and `viber = 1` exactly for the
Viber variant (no format key for plain SMS), and contains `translit` /
`tinyurl` / `maxsms` exactly when supplied, passed through unchanged. -/
theorem claim6_thm (v : MsgVariant) (text : String) (opts : MsgOpts) (m : Message)
    (h : mkMessage v text opts = .ok m) :
    alget (Message.encode m) "mes" = some (.jStr text) ∧
    alget (Message.encode m) "flash" = (if v = .flash then some (.jNum 1) else none) ∧
    alget (Message.encode m) "viber" = (if v = .viber then some (.jNum 1) else none) ∧
    alget (Message.encode m) "translit" = opts.translit ∧
    alget (Message.encode m) "tinyurl" = opts.tinyurl ∧
    alget (Message.encode m) "maxsms" = opts.maxsms := by
  cases v <;> simp only [mkMessage, SMSMessage, FlashMessage, ViberMessage] at h <;>
    split at h <;>
    first
      | (simp only [Except.ok.injEq] at h
         subst h
         rcases opts with ⟨t, u, x⟩
         cases t <;> cases u <;> cases x <;>
           simp [Message.encode, Message.encodeS, Message.init, alset, alget, alHasKey])
      | simp at h

/-- Concrete instantiation of `claim6_thm` at a Viber message with a
`translit` option. -/
theorem claim6_witness :
    alget (Message.encode (Message.init "hi" (some "viber") ⟨some (.jNum 1), none, none⟩)) "viber" =
      some (.jNum 1) := by
  have h := claim6_thm .viber "hi" ⟨some (.jNum 1), none, none⟩
    (Message.init "hi" (some "viber") ⟨some (.jNum 1), none, none⟩) rfl
  simpa using h.2.2.1

/-! ## Claim C8 -/

/-- Claim C8 (confirmed): a 200 balance reply yields a `BalanceResponse`
whose balance and credit default to 0 and whose currency defaults to `""`
when the respective key is absent; the documented example body (balance
`"100.01"`, currency `"RUR"`, no credit key) yields balance 100.01, credit
0, currency `"RUR"`. -/
theorem claim8_thm (r : HttpReply) (obj : JObj) (b : BalanceResponse)
    (h200 : r.statusCode = 200) (hbody : r.body = .obj obj)
    (hok : getBalanceHandle r = .ok b) :
    (alget obj "balance" = none → b.balance = 0) ∧
    (alget obj "credit" = none → b.credit = 0) ∧
    (alget obj "currency" = none → b.currency = "") ∧
    getBalanceHandle ⟨200, [], "", .obj [("balance", .jStr "100.01"), ("currency", .jStr "RUR")]⟩ =
      .ok ⟨⟨none, 0⟩, mkRat 10001 100, 0, "RUR"⟩ := by
  have hinit : BalanceResponse.init obj = .ok b := by
    unfold getBalanceHandle at hok
    simp [h200, hbody, jsonAsObj] at hok
    exact hok
  unfold BalanceResponse.init at hinit
  rcases hbase : Response.init obj with e | base <;> rw [hbase] at hinit
  · simp at hinit
  rcases hb1 : getFloat obj "balance" with e | bal <;> rw [hb1] at hinit
  · simp at hinit
  rcases hb2 : getFloat obj "credit" with e | cred <;> rw [hb2] at hinit
  · simp at hinit
  simp only [Except.ok.injEq] at hinit
  subst hinit
  refine ⟨?_, ?_, ?_, by decide⟩
  · intro hmiss
    have := hb1
    rw [getFloat, hmiss] at this
    simp only [Except.ok.injEq] at this
    simpa using this.symm
  · intro hmiss
    have := hb2
    rw [getFloat, hmiss] at this
    simp only [Except.ok.injEq] at this
    simpa using this.symm
  · intro hmiss
    simp [getStr, hmiss]

/-- Concrete instantiation of `claim8_thm` at the documented balance
body. -/
theorem claim8_witness :
    getBalanceHandle ⟨200, [], "", .obj [("balance", .jStr "100.01"), ("currency", .jStr "RUR")]⟩ =
      .ok ⟨⟨none, 0⟩, mkRat 10001 100, 0, "RUR"⟩ :=
  (claim8_thm ⟨200, [], "", .obj []⟩ [] ⟨⟨none, 0⟩, 0, 0, ""⟩ rfl rfl (by decide)).2.2.2

/-! ## Claim C5 -/

theorem statusList_ok {l : List JObj} {res : List StatusResponse}
    (h : statusList l = .ok res) :
    res.length = l.length ∧
      ∀ i (h1 : i < l.length) (h2 : i < res.length),
        StatusResponse.init (l.get ⟨i, h1⟩) = .ok (res.get ⟨i, h2⟩) := by
  induction l generalizing res with
  | nil =>
    simp only [statusList, Except.ok.injEq] at h
    subst h
    exact ⟨rfl, fun i h1 h2 => absurd h1 (by simp)⟩
  | cons o rest ih =>
    simp only [statusList] at h
    rcases hi : StatusResponse.init o with e | s <;> rw [hi] at h
    · simp at h
    rcases hr : statusList rest with e | ss <;> rw [hr] at h
    · simp at h
    simp only [Except.ok.injEq] at h
    subst h
    obtain ⟨hlen, hidx⟩ := ih hr
    refine ⟨by simp [hlen], ?_⟩
    intro i h1 h2
    cases i with
    | zero => simpa using hi
    | succ j =>
      have h1' : j < rest.length := by simpa using h1
      have h2' : j < ss.length := by simpa using h2
      simpa using hidx j h1' h2'

/-- Claim C5 (corrected), counterexample: a 200 reply whose body is a list
containing one empty object makes `get_status` fail with a `KeyError`
(from the status extraction), not return one `StatusResponse` per
element. -/
theorem claim5_counterexample :
    getStatusHandle ⟨200, [], "[{}]", .arr [[]]⟩ = .error (.keyError "status") := by
  decide

/-- Claim C5 (amended): on a 200 reply, a dict body makes `get_status` fail
with `GetStatusError` carrying the decoded body; a list body for which the
call succeeds yields exactly one `StatusResponse` per list element, in list
order (an element whose construction fails propagates that failure
instead). -/
theorem claim5_thm (r : HttpReply) (h200 : r.statusCode = 200) :
    (∀ o, r.body = .obj o →
      getStatusHandle r = .error (.getStatusError 200 r.headers (.json (.obj o)))) ∧
    (∀ l res, r.body = .arr l → getStatusHandle r = .ok res →
      res.length = l.length ∧
        ∀ i (h1 : i < l.length) (h2 : i < res.length),
          StatusResponse.init (l.get ⟨i, h1⟩) = .ok (res.get ⟨i, h2⟩)) := by
  constructor
  · intro o hb
    simp [getStatusHandle, h200, hb]
  · intro l res hb hok
    rw [getStatusHandle] at hok
    simp [h200, hb] at hok
    exact statusList_ok hok

/-- Concrete instantiation of `claim5_thm`: a 200 reply with a dict body
fails with `GetStatusError` carrying that body. -/
theorem claim5_witness :
    getStatusHandle ⟨200, [("a", "b")], "{}", .obj [("x", .jNull)]⟩ =
      .error (.getStatusError 200 [("a", "b")] (.json (.obj [("x", .jNull)]))) :=
  (claim5_thm ⟨200, [("a", "b")], "{}", .obj [("x", .jNull)]⟩ rfl).1 [("x", .jNull)] rfl

/-! ## Inversion lemmas for the status-response constructor -/

theorem status_init_no_status {obj : JObj} (h : alget obj "status" = none) :
    Status.init obj = .error (.keyError "status") := by
  simp [Status.init, getInt, h, alHasKey]

theorem status_init_no_name {obj : JObj} {v : JVal} {i : Int}
    (hs : alget obj "status" = some v) (hi : pyInt v = .ok i)
    (hn : alget obj "status_name" = none) :
    Status.init obj = .error (.keyError "status_name") := by
  simp [Status.init, getInt, hs, hi, alHasKey, alget_aldel, hn]

theorem status_init_ok_elts {obj : JObj} {v w : JVal} {i : Int}
    (hs : alget obj "status" = some v) (hi : pyInt v = .ok i)
    (hn : alget obj "status_name" = some w) :
    Status.init obj =
      .ok (⟨i, getStr obj "status_name"⟩, aldel (aldel obj "status") "status_name") := by
  simp [Status.init, getInt, hs, hi, alHasKey, alget_aldel, hn]

theorem status_init_ok_inv {obj : JObj} {st : Status} {o2 : JObj}
    (h : Status.init obj = .ok (st, o2)) :
    o2 = aldel (aldel obj "status") "status_name" := by
  unfold Status.init at h
  split at h
  · simp at h
  · split at h
    · split at h
      · simp only [Except.ok.injEq, Prod.mk.injEq] at h
        exact h.2.symm
      · simp at h
    · simp at h

theorem handleDate_missing {o : JObj} {k : String} (h : alget o k = none) :
    handleDate o k = .error (.keyError k) := by
  simp [handleDate, h]

theorem handleDate_ok_inv {o : JObj} {k : String} {x : Option ZonedDT}
    (h : handleDate o k = .ok x) :
    (alget o k = some .jNull ∧ x = none) ∨
      (∃ s d, alget o k = some (.jStr s) ∧ arrowGetMoscow s = .ok d ∧ x = some d) := by
  unfold handleDate at h
  split at h
  · simp at h
  · rename_i hv
    simp only [Except.ok.injEq] at h
    exact Or.inl ⟨hv, h.symm⟩
  · rename_i s hv
    rcases hd : arrowGetMoscow s with e | d <;> rw [hd] at h
    · simp at h
    · simp only [Except.ok.injEq] at h
      exact Or.inr ⟨s, d, hv, hd, h.symm⟩
  · simp at h

theorem arrowGetMoscow_zone {s : String} {d : ZonedDT} (h : arrowGetMoscow s = .ok d) :
    d.zone = "Europe/Moscow" := by
  unfold arrowGetMoscow at h
  rcases hp : parseDTFields s with _ | f <;> rw [hp] at h
  · simp at h
  · simp only [Except.ok.injEq] at h
    rw [← h]

theorem alget_cons {β : Type} (x : String × β) (l : List (String × β)) (k : String) :
    alget (x :: l) k = if x.1 = k then some x.2 else alget l k := by
  rcases x with ⟨a, b⟩
  rfl

theorem alget_dataOf (obj2 : JObj) (ld sd : Option ZonedDT) (k : String) :
    alget (dataOf obj2 ld sd) k =
      (alget obj2 k).map (fun v => (dataEntry ld sd (k, v)).2) := by
  induction obj2 with
  | nil => rfl
  | cons p rest ih =>
    rcases p with ⟨k0, v0⟩
    have hkey : (dataEntry ld sd (k0, v0)).1 = k0 := by
      unfold dataEntry
      split_ifs <;> rfl
    simp only [dataOf, List.map] at ih ⊢
    rw [alget_cons, hkey]
    by_cases h2 : k0 = k
    · subst h2
      simp [alget]
    · rw [if_neg h2, ih, alget_cons]
      simp [h2]

theorem alget_dataOf_last (obj2 : JObj) (ld sd : Option ZonedDT) :
    alget (dataOf obj2 ld sd) "last_date" =
      (alget obj2 "last_date").map (fun v => dval v ld) := by
  cases hv : alget obj2 "last_date" <;> simp [alget_dataOf, hv, dataEntry]

theorem alget_dataOf_send (obj2 : JObj) (ld sd : Option ZonedDT) :
    alget (dataOf obj2 ld sd) "send_date" =
      (alget obj2 "send_date").map (fun v => dval v sd) := by
  cases hv : alget obj2 "send_date" <;> simp [alget_dataOf, hv, dataEntry]

theorem alget_dataOf_other (obj2 : JObj) (ld sd : Option ZonedDT) {k : String}
    (h1 : k ≠ "last_date") (h2 : k ≠ "send_date") :
    alget (dataOf obj2 ld sd) k = (alget obj2 k).map DVal.raw := by
  cases hv : alget obj2 k <;> simp [alget_dataOf, hv, dataEntry, h1, h2]

theorem ddelChecked_ok {o o' : DObj} {k : String} (h : ddelChecked o k = .ok o') :
    o' = aldel o k := by
  unfold ddelChecked at h
  split at h
  · simp only [Except.ok.injEq] at h
    exact h.symm
  · simp at h

theorem ddelChecked_missing {o : DObj} {k : String} (h : alget o k = none) :
    ddelChecked o k = .error (.keyError k) := by
  simp [ddelChecked, alHasKey, h]

theorem alget_aldel_ne2 {β : Type} (k k' : String) (h : k ≠ k') (o : List (String × β)) :
    alget (aldel o k') k = alget o k :=
  alget_aldel_ne o h

theorem alget_dataOf_other2 (k : String) (h1 : k ≠ "last_date") (h2 : k ≠ "send_date")
    (obj2 : JObj) (ld sd : Option ZonedDT) :
    alget (dataOf obj2 ld sd) k = (alget obj2 k).map DVal.raw :=
  alget_dataOf_other obj2 ld sd h1 h2

/-! ## Claim C3 -/

/-- Claim C3 (corrected), counterexample: a raw status object with
`status`, `status_name`, `send_timestamp`, `last_timestamp` and `send_date`
but no `last_date` key does not construct a `StatusResponse` with
`last_date` absent — construction fails with `KeyError("last_date")`. -/
theorem claim3_counterexample :
    StatusResponse.init [("status", .jNum 1), ("status_name", .jStr "Delivered"),
        ("send_timestamp", .jNum 1495823967), ("last_timestamp", .jNum 1495823972),
        ("send_date", .jStr "26.05.2017 21:39:27")] =
      .error (.keyError "last_date") := by
  decide

/-- Claim C3 (amended): whenever `StatusResponse` construction succeeds, the
exposed data mapping excludes `status`, `status_name`, `send_timestamp` and
`last_timestamp`; a `last_date` / `send_date` key holding a string is parsed
from `"DD.MM.YYYY HH:mm:ss"` into a timezone-aware instant in the fixed
zone Europe/Moscow, and a null value is left untouched.  (When one of the
six consumed keys is absent the constructor instead fails, see C10.) -/
theorem claim3_thm (obj : JObj) (r : StatusResponse)
    (h : StatusResponse.init obj = .ok r) :
    (alget r.data "status" = none ∧ alget r.data "status_name" = none ∧
      alget r.data "send_timestamp" = none ∧ alget r.data "last_timestamp" = none) ∧
    (∀ s, alget obj "last_date" = some (.jStr s) →
      ∃ d, arrowGetMoscow s = .ok d ∧ d.zone = "Europe/Moscow" ∧
        alget r.data "last_date" = some (.date d)) ∧
    (alget obj "last_date" = some .jNull → alget r.data "last_date" = some (.raw .jNull)) ∧
    (∀ s, alget obj "send_date" = some (.jStr s) →
      ∃ d, arrowGetMoscow s = .ok d ∧ d.zone = "Europe/Moscow" ∧
        alget r.data "send_date" = some (.date d)) ∧
    (alget obj "send_date" = some .jNull → alget r.data "send_date" = some (.raw .jNull)) := by
  unfold StatusResponse.init at h
  split at h
  · simp at h
  split at h
  · simp at h
  rename_i st obj2 hst
  split at h
  · simp at h
  rename_i ld hld
  split at h
  · simp at h
  rename_i sd hsd
  split at h
  · simp at h
  rename_i d2 hd2
  split at h
  · simp at h
  rename_i d3 hd3
  simp only [Except.ok.injEq] at h
  subst h
  dsimp only
  have hobj2 := status_init_ok_inv hst
  subst hobj2
  have hd2e := ddelChecked_ok hd2
  subst hd2e
  have hd3e := ddelChecked_ok hd3
  subst hd3e
  have hgld : alget (aldel (aldel obj "status") "status_name") "last_date" =
      alget obj "last_date" := by
    rw [alget_aldel_ne2 "last_date" "status_name" (by decide),
        alget_aldel_ne2 "last_date" "status" (by decide)]
  have hgsd : alget (aldel (aldel obj "status") "status_name") "send_date" =
      alget obj "send_date" := by
    rw [alget_aldel_ne2 "send_date" "status_name" (by decide),
        alget_aldel_ne2 "send_date" "status" (by decide)]
  refine ⟨⟨?_, ?_, ?_, ?_⟩, ?_, ?_, ?_, ?_⟩
  · rw [alget_aldel_ne2 "status" "last_timestamp" (by decide),
        alget_aldel_ne2 "status" "send_timestamp" (by decide),
        alget_dataOf_other2 "status" (by decide) (by decide),
        alget_aldel_ne2 "status" "status_name" (by decide),
        alget_aldel_self]
    rfl
  · rw [alget_aldel_ne2 "status_name" "last_timestamp" (by decide),
        alget_aldel_ne2 "status_name" "send_timestamp" (by decide),
        alget_dataOf_other2 "status_name" (by decide) (by decide),
        alget_aldel_self]
    rfl
  · rw [alget_aldel_ne2 "send_timestamp" "last_timestamp" (by decide),
        alget_aldel_self]
  · rw [alget_aldel_self]
  · intro s hv
    have hv2 : alget (aldel (aldel obj "status") "status_name") "last_date" =
        some (.jStr s) := by rw [hgld]; exact hv
    rcases handleDate_ok_inv hld with ⟨hnull, _⟩ | ⟨s', d, hs', hd, hldval⟩
    · rw [hv2] at hnull
      simp at hnull
    · rw [hv2] at hs'
      have hss : s' = s := by
        simpa using hs'.symm
      subst hss
      subst hldval
      refine ⟨d, hd, arrowGetMoscow_zone hd, ?_⟩
      rw [alget_aldel_ne2 "last_date" "last_timestamp" (by decide),
          alget_aldel_ne2 "last_date" "send_timestamp" (by decide),
          alget_dataOf_last, hv2]
      rfl
  · intro hv
    have hv2 : alget (aldel (aldel obj "status") "status_name") "last_date" =
        some .jNull := by rw [hgld]; exact hv
    rcases handleDate_ok_inv hld with ⟨hnull, hldval⟩ | ⟨s', d, hs', hd, hldval⟩
    · subst hldval
      rw [alget_aldel_ne2 "last_date" "last_timestamp" (by decide),
          alget_aldel_ne2 "last_date" "send_timestamp" (by decide),
          alget_dataOf_last, hv2]
      rfl
    · rw [hv2] at hs'
      simp at hs'
  · intro s hv
    have hv2 : alget (aldel (aldel obj "status") "status_name") "send_date" =
        some (.jStr s) := by rw [hgsd]; exact hv
    rcases handleDate_ok_inv hsd with ⟨hnull, _⟩ | ⟨s', d, hs', hd, hsdval⟩
    · rw [hv2] at hnull
      simp at hnull
    · rw [hv2] at hs'
      have hss : s' = s := by
        simpa using hs'.symm
      subst hss
      subst hsdval
      refine ⟨d, hd, arrowGetMoscow_zone hd, ?_⟩
      rw [alget_aldel_ne2 "send_date" "last_timestamp" (by decide),
          alget_aldel_ne2 "send_date" "send_timestamp" (by decide),
          alget_dataOf_send, hv2]
      rfl
  · intro hv
    have hv2 : alget (aldel (aldel obj "status") "status_name") "send_date" =
        some .jNull := by rw [hgsd]; exact hv
    rcases handleDate_ok_inv hsd with ⟨hnull, hsdval⟩ | ⟨s', d, hs', hd, hsdval⟩
    · subst hsdval
      rw [alget_aldel_ne2 "send_date" "last_timestamp" (by decide),
          alget_aldel_ne2 "send_date" "send_timestamp" (by decide),
          alget_dataOf_send, hv2]
      rfl
    · rw [hv2] at hs'
      simp at hs'

/-- Concrete instantiation of `claim3_thm` at a full raw status object:
the four consumed keys are absent from the exposed data, the null
`last_date` is preserved, and `send_date` is parsed into the Europe/Moscow
instant 2017-05-26 21:39:27. -/
theorem claim3_witness :
    alget (StatusResponse.data ⟨⟨none, 0⟩, ⟨1, "D"⟩,
        [("id", .raw (.jNum 1)),
         ("send_date", .date ⟨⟨26, 5, 2017, 21, 39, 27⟩, "Europe/Moscow"⟩),
         ("last_date", .raw .jNull)]⟩) "status" = none ∧
    alget (StatusResponse.data ⟨⟨none, 0⟩, ⟨1, "D"⟩,
        [("id", .raw (.jNum 1)),
         ("send_date", .date ⟨⟨26, 5, 2017, 21, 39, 27⟩, "Europe/Moscow"⟩),
         ("last_date", .raw .jNull)]⟩) "last_date" = some (.raw .jNull) ∧
    alget (StatusResponse.data ⟨⟨none, 0⟩, ⟨1, "D"⟩,
        [("id", .raw (.jNum 1)),
         ("send_date", .date ⟨⟨26, 5, 2017, 21, 39, 27⟩, "Europe/Moscow"⟩),
         ("last_date", .raw .jNull)]⟩) "send_date" =
      some (.date ⟨⟨26, 5, 2017, 21, 39, 27⟩, "Europe/Moscow"⟩) := by
  have h := claim3_thm
    [("id", .jNum 1), ("status", .jNum 1), ("status_name", .jStr "D"),
     ("send_timestamp", .jNum 100), ("last_timestamp", .jNum 200),
     ("send_date", .jStr "26.05.2017 21:39:27"), ("last_date", .jNull)]
    ⟨⟨none, 0⟩, ⟨1, "D"⟩,
      [("id", .raw (.jNum 1)),
       ("send_date", .date ⟨⟨26, 5, 2017, 21, 39, 27⟩, "Europe/Moscow"⟩),
       ("last_date", .raw .jNull)]⟩
    (by decide)
  refine ⟨h.1.1, h.2.2.1 (by decide), ?_⟩
  obtain ⟨d, hd, hz, hdata⟩ := h.2.2.2.1 "26.05.2017 21:39:27" (by decide)
  have hdeq : d = ⟨⟨26, 5, 2017, 21, 39, 27⟩, "Europe/Moscow"⟩ := by
    have h2 : arrowGetMoscow "26.05.2017 21:39:27" =
        .ok ⟨⟨26, 5, 2017, 21, 39, 27⟩, "Europe/Moscow"⟩ := by decide
    rw [hd] at h2
    simpa using h2
  rw [hdeq] at hdata
  exact hdata

/-! ## Claim C10 -/

theorem handleDate_null {o : JObj} {k : String} (h : alget o k = some .jNull) :
    handleDate o k = .ok none := by
  unfold handleDate
  rw [h]

theorem handleDate_str {o : JObj} {k s : String} {d : ZonedDT}
    (h : alget o k = some (.jStr s)) (hd : arrowGetMoscow s = .ok d) :
    handleDate o k = .ok (some d) := by
  unfold handleDate
  rw [h]
  dsimp only
  rw [hd]

theorem handleDate_ok_of_shape {obj o2 : JObj} {k : String}
    (heq : alget o2 k = alget obj k) (hshape : dateShapeOk obj k = true)
    (hpresent : alget obj k ≠ none) :
    ∃ x, handleDate o2 k = .ok x := by
  unfold dateShapeOk at hshape
  rcases hv : alget obj k with _ | v
  · exact absurd hv hpresent
  rw [hv] at hshape
  rcases v with _ | q | s
  · exact ⟨none, handleDate_null (by rw [heq, hv])⟩
  · simp at hshape
  · dsimp only at hshape
    rcases hag : arrowGetMoscow s with e | d
    · rw [hag] at hshape
      simp [okB] at hshape
    · exact ⟨some d, handleDate_str (by rw [heq, hv]) hag⟩

/-- Claim C10 (confirmed): a raw status object whose defaulting conversions
are well shaped but which lacks any one of the keys `status`,
`status_name`, `send_timestamp`, `last_timestamp`, `last_date`, `send_date`
makes `StatusResponse` construction fail with a `KeyError` — no default is
applied and no field is left absent. -/
theorem claim10_thm (obj : JObj) (k : String)
    (hconv : convOk obj = true)
    (hk : k ∈ statusKeys)
    (hmiss : alget obj k = none) :
    isKeyErr (StatusResponse.init obj) = true := by
  simp only [convOk, Bool.and_eq_true] at hconv
  obtain ⟨⟨⟨h1, h2⟩, h3⟩, h4⟩ := hconv
  unfold StatusResponse.init
  rcases hb : Response.init obj with e | base
  · rw [hb] at h1
    simp [okB] at h1
  dsimp only
  rcases hs0 : alget obj "status" with _ | v
  · rw [status_init_no_status hs0]
    rfl
  rw [hs0] at h2
  dsimp only at h2
  rcases hpi : pyInt v with e | i
  · rw [hpi] at h2
    simp [okB] at h2
  rcases hs1 : alget obj "status_name" with _ | w
  · rw [status_init_no_name hs0 hpi hs1]
    rfl
  rw [status_init_ok_elts hs0 hpi hs1]
  dsimp only
  have hgld : alget (aldel (aldel obj "status") "status_name") "last_date" =
      alget obj "last_date" := by
    rw [alget_aldel_ne2 "last_date" "status_name" (by decide),
        alget_aldel_ne2 "last_date" "status" (by decide)]
  have hgsd : alget (aldel (aldel obj "status") "status_name") "send_date" =
      alget obj "send_date" := by
    rw [alget_aldel_ne2 "send_date" "status_name" (by decide),
        alget_aldel_ne2 "send_date" "status" (by decide)]
  have hgst : alget (aldel (aldel obj "status") "status_name") "send_timestamp" =
      alget obj "send_timestamp" := by
    rw [alget_aldel_ne2 "send_timestamp" "status_name" (by decide),
        alget_aldel_ne2 "send_timestamp" "status" (by decide)]
  have hglt : alget (aldel (aldel obj "status") "status_name") "last_timestamp" =
      alget obj "last_timestamp" := by
    rw [alget_aldel_ne2 "last_timestamp" "status_name" (by decide),
        alget_aldel_ne2 "last_timestamp" "status" (by decide)]
  rcases hld0 : alget obj "last_date" with _ | lv
  · rw [handleDate_missing (by rw [hgld, hld0])]
    rfl
  obtain ⟨ld, hldok⟩ := handleDate_ok_of_shape hgld h3 (by rw [hld0]; exact fun hc => Option.noConfusion hc)
  rw [hldok]
  dsimp only
  rcases hsd0 : alget obj "send_date" with _ | sv
  · rw [handleDate_missing (by rw [hgsd, hsd0])]
    rfl
  obtain ⟨sd, hsdok⟩ := handleDate_ok_of_shape hgsd h4 (by rw [hsd0]; exact fun hc => Option.noConfusion hc)
  rw [hsdok]
  dsimp only
  rcases hst0 : alget obj "send_timestamp" with _ | tv
  · rw [ddelChecked_missing (by
      rw [alget_dataOf_other2 "send_timestamp" (by decide) (by decide), hgst, hst0]
      rfl)]
    rfl
  have hstk : ddelChecked (dataOf (aldel (aldel obj "status") "status_name") ld sd)
      "send_timestamp" =
      .ok (aldel (dataOf (aldel (aldel obj "status") "status_name") ld sd) "send_timestamp") := by
    unfold ddelChecked
    rw [if_pos]
    simp [alHasKey, alget_dataOf_other2 "send_timestamp" (by decide) (by decide), hgst, hst0]
  rw [hstk]
  dsimp only
  rcases hlt0 : alget obj "last_timestamp" with _ | uv
  · rw [ddelChecked_missing (by
      rw [alget_aldel_ne2 "last_timestamp" "send_timestamp" (by decide),
          alget_dataOf_other2 "last_timestamp" (by decide) (by decide), hglt, hlt0]
      rfl)]
    rfl
  exfalso
  simp only [statusKeys, List.mem_cons, List.not_mem_nil, or_false] at hk
  rcases hk with rfl | rfl | rfl | rfl | rfl | rfl
  · rw [hs0] at hmiss
    exact Option.noConfusion hmiss
  · rw [hs1] at hmiss
    exact Option.noConfusion hmiss
  · rw [hst0] at hmiss
    exact Option.noConfusion hmiss
  · rw [hlt0] at hmiss
    exact Option.noConfusion hmiss
  · rw [hld0] at hmiss
    exact Option.noConfusion hmiss
  · rw [hsd0] at hmiss
    exact Option.noConfusion hmiss

/-- Concrete instantiation of `claim10_thm`: a well-shaped raw object
missing `last_timestamp` fails with a `KeyError`. -/
theorem claim10_witness :
    isKeyErr (StatusResponse.init [("status", .jNum 1), ("status_name", .jStr "D"),
      ("send_timestamp", .jNum 100), ("last_date", .jNull), ("send_date", .jNull)]) = true :=
  claim10_thm [("status", .jNum 1), ("status_name", .jStr "D"),
      ("send_timestamp", .jNum 100), ("last_date", .jNull), ("send_date", .jNull)]
    "last_timestamp" (by decide) (by decide) (by decide)
